import Mathlib

/-!
Verification development for the `ipc-rules` plugin
(src/plugins/single_plugins/ipc-rules.cpp): the IPC subscription
multiplexer, client registry, fan-out router and the request handlers.

The embedding models:
- JSON request values (`JVal`, mirroring the nlohmann::json values that
  reach the handlers over the wire);
- the event catalog `signal_map` (the keys plus the registration scope of
  each entry: core-scope entries come from `get_generic_core_registration_cb`,
  output-scope entries from `get_generic_output_registration_cb`);
- the mutable plugin state (`MuxState`): the per-event `connected_count`
  of each `signal_registration_handler`, the `clients` map from client
  handles to their subscribed event-name sets (std::set, modelled as a
  sorted duplicate-free list), and the set of currently existing outputs;
- the operations `increase_count`, `decrease_count`, `on_client_watch`,
  `on_client_disconnected`, `handle_new_output`, `handle_output_removed`
  and `send_event_to_subscribes`, instrumented to return the list of
  externally visible side effects (`Act`): signal attachments and
  detachments and `client->send_json` calls;
- the thin handlers `configure_view` and `configure_input_device`, whose
  host mutations are likewise returned as explicit action lists.
-/

/-- A JSON value as the handlers receive it. Mirrors the nlohmann::json
subset the plugin touches. `jint` covers both signed and unsigned wire
integers; nlohmann stores a wire-parsed integer as `number_unsigned`
exactly when it is non-negative, so `is_number_unsigned` is modelled as
`0 ≤ n` and `is_number_integer` as any `jint`. -/
inductive JVal where
  | jnull
  | jbool (b : Bool)
  | jint (n : Int)
  | jstr (s : String)
  | jarr (elems : List JVal)
  | jobj (fields : List (String × JVal))

/-- Field lookup on a JSON object (`data["f"]` / `data.contains("f")`);
`none` for absent fields and for non-objects. -/
def jget (v : JVal) (f : String) : Option JVal :=
  match v with
  | .jobj fields => fields.lookup f
  | _ => none

/-- `data.count(f) > 0` in nlohmann terms. -/
def jcontains (v : JVal) (f : String) : Bool :=
  (jget v f).isSome

/-- The JSON type names used by the field-validation macros. -/
inductive JTy where
  | number_integer
  | number_unsigned
  | boolean
  | object
  | array
  | string

/-- `j.is_<ty>()` for the types the plugin checks. -/
def has_type (v : JVal) : JTy → Bool
  | .number_integer => match v with | .jint _ => true | _ => false
  | .number_unsigned => match v with | .jint n => decide (0 ≤ n) | _ => false
  | .boolean => match v with | .jbool _ => true | _ => false
  | .object => match v with | .jobj _ => true | _ => false
  | .array => match v with | .jarr _ => true | _ => false
  | .string => match v with | .jstr _ => true | _ => false

/-- `sub.is_string()` on a watch-list entry. -/
def isString : JVal → Bool
  | .jstr _ => true
  | _ => false

/-- A handler response: `wf::ipc::json_ok()` or `wf::ipc::json_error(msg)`. -/
inductive Resp where
  | ok
  | error (msg : String)
deriving DecidableEq, Repr

abbrev ClientId := Nat
abbrev OutputId := Nat

/-- The catalog entries registered through `get_generic_core_registration_cb`
(ipc-rules.cpp lines 255-264): their `register_core` connects to the core
and their `register_output` is the default no-op. -/
def core_scope_names : List String :=
  ["view-mapped", "view-unmapped", "view-set-output", "view-geometry-changed",
   "view-wset-changed", "view-focused", "view-title-changed", "view-app-id-changed",
   "plugin-activation-state-changed", "output-gain-focus"]

/-- The catalog entries registered through `get_generic_output_registration_cb`
(ipc-rules.cpp lines 266-272): their `register_output` connects to the given
output and their `register_core` is the default no-op. -/
def output_scope_names : List String :=
  ["view-tiled", "view-minimized", "view-fullscreened", "view-sticky",
   "view-workspace-changed", "output-wset-changed", "wset-workspace-changed"]

/-- The keys of `signal_map` (ipc-rules.cpp lines 253-273), in declaration
order. Only membership matters below; the std::map itself iterates its keys
in lexicographic order. -/
def signal_map_names : List String :=
  core_scope_names ++ output_scope_names

/-- The event name each connected signal handler passes to
`send_event_to_subscribes` (ipc-rules.cpp lines 589-733). Every handler
publishes the same name as its `signal_map` key, with one exception: the
handler `_fullscreened` stored under the key "view-fullscreened" (line 268)
publishes the literal "view-fullscreen" (line 656). -/
def handler_event_name (n : String) : String :=
  if n = "view-fullscreened" then "view-fullscreen" else n

/-- Lexicographic comparison of character lists by codepoint. -/
def charListLt (a b : List Char) : Bool :=
  match a, b with
  | _, [] => false
  | [], _ :: _ => true
  | c :: cs, d :: ds => c.toNat < d.toNat || (c.toNat == d.toNat && charListLt cs ds)

/-- `std::string::operator<` (byte-lexicographic; the event names are
ASCII, where codepoint order coincides with byte order). -/
def strLt (a b : String) : Bool := charListLt a.data b.data

/-- Ordered duplicate-free insertion, mirroring `std::set<std::string>::insert`. -/
def setInsert (x : String) : List String → List String
  | [] => [x]
  | y :: ys => if strLt x y then x :: y :: ys else if x = y then y :: ys else y :: setInsert x ys

/-- An externally visible side effect of the plugin:
- `attach_core name`: the `register_core` closure of `signal_map[name]`
  connects its handler to the core;
- `attach_output name o`: the `register_output` closure of `signal_map[name]`
  connects its handler to output `o`;
- `detach name`: the `unregister` closure disconnects the handler;
- `send c name`: `client->send_json(data)` for client `c`, where `data`
  is the payload published under event name `name` (the payload itself is
  identical for every recipient, so only the routing name is recorded). -/
inductive Act where
  | attach_core (name : String)
  | attach_output (name : String) (o : OutputId)
  | detach (name : String)
  | send (c : ClientId) (name : String)
deriving DecidableEq, Repr

/-- The mutable state of `ipc_rules_t`:
`counts name` is `signal_map[name].connected_count`;
`clients` is the `std::map<client_interface_t*, std::set<std::string>> clients`
member (association list with unique keys in reachable states, each value a
sorted duplicate-free list); `outputs` is the set of outputs currently in
`output_layout`. -/
structure MuxState where
  counts : String → Int
  clients : List (ClientId × List String)
  outputs : List OutputId

/-- The state at plugin init: no counts, no watching clients, no outputs. -/
def initState : MuxState :=
  { counts := fun _ => 0, clients := [], outputs := [] }

/-- `clients[c]` read access (std::map operator[] default-constructs an
empty set for an absent key). -/
def getClient (cs : List (ClientId × List String)) (c : ClientId) : List String :=
  match cs.lookup c with
  | some v => v
  | none => []

/-- `clients[c] = v`: overwrite the existing entry or insert a new one. -/
def setClient (cs : List (ClientId × List String)) (c : ClientId) (v : List String) :
    List (ClientId × List String) :=
  match cs with
  | [] => [(c, v)]
  | p :: rest => if p.1 = c then (c, v) :: rest else p :: setClient rest c v

/-- `clients.erase(c)`. -/
def eraseClient (cs : List (ClientId × List String)) (c : ClientId) :
    List (ClientId × List String) :=
  match cs with
  | [] => []
  | p :: rest => if p.1 = c then rest else p :: eraseClient rest c

/-- `signal_registration_handler::increase_count` (ipc-rules.cpp lines
207-220): increment `connected_count`; if the new count exceeds 1 do
nothing further, otherwise call `register_core()` and then
`register_output(wo)` for every currently existing output. For a
core-scope entry only `register_core` attaches; for an output-scope entry
only `register_output` does. -/
def increase_count (s : MuxState) (name : String) : MuxState × List Act :=
  let newCount := s.counts name + 1
  let s1 : MuxState := { s with counts := fun n => if n = name then newCount else s.counts n }
  if newCount > 1 then
    (s1, [])
  else
    let coreActs := if core_scope_names.contains name then [Act.attach_core name] else []
    let outActs := if output_scope_names.contains name
      then s.outputs.map (Act.attach_output name) else []
    (s1, coreActs ++ outActs)

/-- `signal_registration_handler::decrease_count` (ipc-rules.cpp lines
222-231): decrement `connected_count`; if the new count is still positive
do nothing, otherwise call `unregister()`, disconnecting the handler. -/
def decrease_count (s : MuxState) (name : String) : MuxState × List Act :=
  let newCount := s.counts name - 1
  let s1 : MuxState := { s with counts := fun n => if n = name then newCount else s.counts n }
  if newCount > 0 then
    (s1, [])
  else
    (s1, [Act.detach name])

/-- `increase_count` applied to each name of a subscription set in
iteration order (the source iterates a `std::set`, i.e. sorted order). -/
def increase_many (s : MuxState) (names : List String) : MuxState × List Act :=
  match names with
  | [] => (s, [])
  | n :: rest =>
    let r1 := increase_count s n
    let r2 := increase_many r1.1 rest
    (r2.1, r1.2 ++ r2.2)

/-- `decrease_count` applied to each name of a subscription set. -/
def decrease_many (s : MuxState) (names : List String) : MuxState × List Act :=
  match names with
  | [] => (s, [])
  | n :: rest =>
    let r1 := decrease_count s n
    let r2 := decrease_many r1.1 rest
    (r2.1, r1.2 ++ r2.2)

/-- The per-client delivery test inside `send_event_to_subscribes`
(ipc-rules.cpp line 582): `events.empty() || events.count(event_name)`. -/
def wants (events : List String) (name : String) : Bool :=
  events.isEmpty || events.contains name

/-- `send_event_to_subscribes` (ipc-rules.cpp lines 578-587): send the
payload to every registered client whose stored subscription set is empty
or contains the event name. -/
def send_event_to_subscribes (s : MuxState) (event_name : String) : List Act :=
  s.clients.filterMap fun p =>
    if wants p.2 event_name then some (Act.send p.1 event_name) else none

/-- The filtering loop of `on_client_watch` (ipc-rules.cpp lines 530-541):
scan the `events` array left to right; any non-string entry aborts with an
error; a string entry is inserted into `subscribed_to` only when it is a
`signal_map` key (unknown names are silently dropped). -/
def parse_watch_list (acc : List String) : List JVal → Option (List String)
  | [] => some acc
  | JVal.jstr s :: rest =>
    parse_watch_list (if signal_map_names.contains s then setInsert s acc else acc) rest
  | _ :: _ => none

/-- The set built by the `else` branch of `on_client_watch` (ipc-rules.cpp
lines 542-548) when the request has no `events` field: every `signal_map`
key is inserted into `subscribed_to`. -/
def all_catalog_events : List String :=
  signal_map_names.foldl (fun acc n => setInsert n acc) []

/-- `on_client_watch` (ipc-rules.cpp lines 522-557). Returns the new state,
the attachment side effects, and the response. If the optional `events`
field is present it must be an array; non-string entries yield an error
with no state change; otherwise `subscribed_to` is the filtered set (or
the full catalog when the field is absent), `increase_count` runs for each
of its names, and `clients[client] = subscribed_to` overwrites the
client's previous subscription set without decrementing it. -/
def on_client_watch (s : MuxState) (client : ClientId) (data : JVal) :
    MuxState × List Act × Resp :=
  match jget data "events" with
  | some (JVal.jarr l) =>
    match parse_watch_list [] l with
    | none => (s, [], Resp.error "Event list contains non-string entries!")
    | some subscribed_to =>
      let r := increase_many s subscribed_to
      ({ r.1 with clients := setClient r.1.clients client subscribed_to }, r.2, Resp.ok)
  | some _ => (s, [], Resp.error "invalid-parameter: events")
  | none =>
    let subscribed_to := all_catalog_events
    let r := increase_many s subscribed_to
    ({ r.1 with clients := setClient r.1.clients client subscribed_to }, r.2, Resp.ok)

/-- `on_client_disconnected` (ipc-rules.cpp lines 559-568): decrement the
count of every name in the disconnecting client's stored set, then erase
the client's entry. -/
def on_client_disconnected (s : MuxState) (c : ClientId) : MuxState × List Act :=
  let r := decrease_many s (getClient s.clients c)
  ({ r.1 with clients := eraseClient r.1.clients c }, r.2)

/-- An input to the plugin: a `events/watch` request, a client disconnect,
an output appearing or disappearing, or a catalog signal firing (the
latter delivers only while the corresponding handler is connected, and
publishes under `handler_event_name`). -/
inductive Event where
  | watch (client : ClientId) (data : JVal)
  | disconnect (client : ClientId)
  | new_output (o : OutputId)
  | output_removed (o : OutputId)
  | signal_fired (name : String)

/-- One step of the plugin. `new_output` follows `handle_new_output`
(ipc-rules.cpp lines 174-188): every `signal_map` entry with a nonzero
`connected_count` gets `register_output(output)` (attaching only the
output-scope entries), then the "output-added" event is published.
`output_removed` follows `handle_output_removed` (lines 190-196):
the "output-removed" event is published and the output disappears. -/
def step (s : MuxState) (e : Event) : MuxState × List Act :=
  match e with
  | .watch c data =>
    let r := on_client_watch s c data
    (r.1, r.2.1)
  | .disconnect c => on_client_disconnected s c
  | .new_output o =>
    let regActs := signal_map_names.filterMap fun n =>
      if (s.counts n != 0) && output_scope_names.contains n
      then some (Act.attach_output n o) else none
    let s1 : MuxState := { s with outputs := s.outputs ++ [o] }
    (s1, regActs ++ send_event_to_subscribes s1 "output-added")
  | .output_removed o =>
    ({ s with outputs := s.outputs.filter (fun x => x ≠ o) },
     send_event_to_subscribes s "output-removed")
  | .signal_fired n =>
    if s.counts n != 0
    then (s, send_event_to_subscribes s (handler_event_name n))
    else (s, [])

/-- Run a sequence of events from the initial state, accumulating the
action trace. -/
def run (es : List Event) : MuxState × List Act :=
  es.foldl (fun p e => let r := step p.1 e; (r.1, p.2 ++ r.2)) (initState, [])

/-- A rectangle as used by `configure-view`. -/
structure Geometry where
  x : Int
  y : Int
  width : Int
  height : Int
deriving DecidableEq, Repr

/-- Modelled from the spec: `wf::ipc::geometry_from_json` lives in
plugins/ipc/ipc-helpers.hpp, which is not under src/. Per the spec's
geometry object contract (a JSON object with the rectangle's integer
coordinates and dimensions) it parses the `x`, `y`, `width` and `height`
integer fields and fails on any missing or mistyped one; the call site at
ipc-rules.cpp lines 452-458 shows only that it can fail on a well-typed
object, producing the "invalid geometry" error. -/
def geometry_from_json (j : JVal) : Option Geometry :=
  match jget j "x", jget j "y", jget j "width", jget j "height" with
  | some (JVal.jint x), some (JVal.jint y), some (JVal.jint w), some (JVal.jint h) =>
    some { x := x, y := y, width := w, height := h }
  | _, _, _, _ => none

/-- Modelled from the spec: the field-validation macros
`WFJSON_EXPECT_FIELD` and `WFJSON_OPTIONAL_FIELD` live in
plugins/ipc/ipc-method-repository.hpp / ipc-helpers.hpp, not under src/.
Per spec section 4.4, a required field that is missing or mistyped, and an
optional field that is present but mistyped, short-circuit the handler
with an invalid-parameter error naming the field, before any host-state
mutation. This predicate is the optional-field type check: it passes when
the field is absent or has the declared type. -/
def opt_type_ok (data : JVal) (f : String) (t : JTy) : Bool :=
  match jget data f with
  | none => true
  | some v => has_type v t

/-- The invalid-parameter error response naming a field (modelled from
the spec, see `opt_type_ok`). -/
def invalid_param (f : String) : Resp :=
  Resp.error ("invalid-parameter: " ++ f)

/-- The host state `configure_view` reads: the existing views (id paired
with whether `toplevel_cast` succeeds on them) and the existing output
ids. -/
structure CVWorld where
  views : List (Int × Bool)
  outputs : List Int

/-- `wf::ipc::find_view_by_id`, restricted to what `configure_view`
consumes: the view's toplevel-ness, or `none` when no view has the id. -/
def find_view (w : CVWorld) (id : Int) : Option Bool :=
  w.views.lookup id

/-- A host-state mutation issued by `configure_view`:
`wf::move_view_to_output(toplevel, wo, reconfigure)`,
`toplevel->set_geometry(g)` or `toplevel->set_sticky(b)`. -/
inductive CVAct where
  | move_view_to_output (view : Int) (out : Int) (reconfigure : Bool)
  | set_geometry (view : Int) (g : Geometry)
  | set_sticky (view : Int) (b : Bool)
deriving DecidableEq, Repr

/-- The trailing `data.contains("sticky")` block of `configure_view`
(ipc-rules.cpp lines 463-468): apply `set_sticky` when the field is
present (its boolean type was already checked upfront) and return ok. -/
def finish_sticky (data : JVal) (vid : Int) (acts : List CVAct) : Resp × List CVAct :=
  match jget data "sticky" with
  | some (JVal.jbool b) => (Resp.ok, acts ++ [CVAct.set_sticky vid b])
  | _ => (Resp.ok, acts)

/-- `configure_view` (ipc-rules.cpp lines 422-469). In source order:
require an integer `id`; type-check the optional `output_id` (integer),
`geometry` (object) and `sticky` (boolean) fields; resolve the view and
require it to be toplevel; then, if `output_id` is present, resolve the
output (error if absent) and move the view to it, reconfiguring exactly
when no `geometry` field is present; then, if `geometry` is present,
parse it (error if invalid — note the move above has already happened)
and apply it; then apply `sticky` if present. The returned list holds the
mutations actually applied. -/
def configure_view (data : JVal) (w : CVWorld) : Resp × List CVAct :=
  match jget data "id" with
  | some (JVal.jint vid) =>
    if !opt_type_ok data "output_id" JTy.number_integer then (invalid_param "output_id", [])
    else if !opt_type_ok data "geometry" JTy.object then (invalid_param "geometry", [])
    else if !opt_type_ok data "sticky" JTy.boolean then (invalid_param "sticky", [])
    else
      match find_view w vid with
      | none => (Resp.error "view not found", [])
      | some is_toplevel =>
        if !is_toplevel then (Resp.error "view is not toplevel", [])
        else
          match (match jget data "output_id" with
                 | some (JVal.jint oid) =>
                   if w.outputs.contains oid
                   then Sum.inl [CVAct.move_view_to_output vid oid (!jcontains data "geometry")]
                   else Sum.inr "output not found"
                 | _ => Sum.inl []) with
          | Sum.inr e => (Resp.error e, [])
          | Sum.inl acts1 =>
            match jget data "geometry" with
            | some g =>
              match geometry_from_json g with
              | none => (Resp.error "invalid geometry", acts1)
              | some geom => finish_sticky data vid (acts1 ++ [CVAct.set_geometry vid geom])
            | none => finish_sticky data vid acts1
  | some _ => (invalid_param "id", [])
  | none => (invalid_param "id", [])

/-- An input device as `configure_input_device` sees it: the stable
integer id `(intptr_t)device->get_wlr_handle()` and its enabled flag. -/
structure InputDevice where
  id : Int
  enabled : Bool
deriving DecidableEq, Repr

/-- The device loop of `configure_input_device` (ipc-rules.cpp lines
835-843): walk the device list; on the first device whose handle equals
the requested id, call `set_enabled` and stop. Returns whether a device
matched together with the updated list. -/
def set_first_matching : List InputDevice → Int → Bool → Bool × List InputDevice
  | [], _, _ => (false, [])
  | d :: rest, i, b =>
    if d.id = i then (true, { d with enabled := b } :: rest)
    else
      let r := set_first_matching rest i b
      (r.1, d :: r.2)

/-- `configure_input_device` (ipc-rules.cpp lines 830-846): require an
`id` field of nlohmann type number_unsigned (a wire integer that is
non-negative — a negative integer id fails this check) and a boolean
`enabled` field; enable/disable the first device whose handle matches, or
answer `Unknown input device!` when none does. Returns the response and
the device list after the call. -/
def configure_input_device (data : JVal) (devices : List InputDevice) :
    Resp × List InputDevice :=
  match jget data "id" with
  | some (JVal.jint i) =>
    if i < 0 then (invalid_param "id", devices)
    else
      match jget data "enabled" with
      | some (JVal.jbool b) =>
        let r := set_first_matching devices i b
        if r.1 then (Resp.ok, r.2) else (Resp.error "Unknown input device!", devices)
      | _ => (invalid_param "enabled", devices)
  | some _ => (invalid_param "id", devices)
  | none => (invalid_param "id", devices)

/-! ### Basic lemmas about the multiplexer operations -/

/-- Membership in a `setInsert` result. -/
lemma mem_setInsert {a x : String} : ∀ {l : List String}, a ∈ setInsert x l ↔ a = x ∨ a ∈ l := by
  intro l
  induction l with
  | nil => simp [setInsert]
  | cons y ys ih =>
    unfold setInsert
    split
    · simp
    · split
      · rename_i hxy
        subst hxy
        simp [List.mem_cons]
      · simp only [List.mem_cons, ih]
        tauto

/-- Membership in the folded catalog set. -/
lemma mem_foldl_setInsert (a : String) :
    ∀ (l acc : List String), a ∈ l.foldl (fun acc n => setInsert n acc) acc ↔ a ∈ l ∨ a ∈ acc := by
  intro l
  induction l with
  | nil => intro acc; simp
  | cons m rest ih =>
    intro acc
    simp only [List.foldl_cons, ih, mem_setInsert, List.mem_cons]
    tauto

/-- `all_catalog_events` holds exactly the `signal_map` keys. -/
lemma mem_all_catalog_events {a : String} : a ∈ all_catalog_events ↔ a ∈ signal_map_names := by
  unfold all_catalog_events
  rw [mem_foldl_setInsert]
  simp

/-- Multiplicity of a name in the folded catalog set. -/
lemma count_all_catalog_events (n : String) :
    all_catalog_events.count n = if n ∈ signal_map_names then 1 else 0 := by
  have hnd : all_catalog_events.Nodup := by decide
  rw [List.count_eq_of_nodup hnd]
  simp [mem_all_catalog_events]

/-- The state component of `increase_count`. -/
lemma increase_count_fst (s : MuxState) (name : String) :
    (increase_count s name).1 =
      { s with counts := fun n => if n = name then s.counts name + 1 else s.counts n } := by
  by_cases h : s.counts name + 1 > 1 <;> simp [increase_count, h]

/-- The state component of `decrease_count`. -/
lemma decrease_count_fst (s : MuxState) (name : String) :
    (decrease_count s name).1 =
      { s with counts := fun n => if n = name then s.counts name - 1 else s.counts n } := by
  by_cases h : s.counts name - 1 > 0 <;> simp [decrease_count, h]

/-- The counts after a whole `increase_many` pass: each name gains its
multiplicity in the processed list. -/
lemma increase_many_counts :
    ∀ (l : List String) (s : MuxState) (n : String),
      ((increase_many s l).1).counts n = s.counts n + l.count n := by
  intro l
  induction l with
  | nil => intro s n; simp [increase_many]
  | cons m rest ih =>
    intro s n
    simp only [increase_many]
    rw [ih, increase_count_fst]
    simp only [List.count_cons]
    by_cases h : n = m
    · subst h
      simp
      omega
    · have : (m == n) = false := by simp [Ne.symm h]
      simp [h, this]

/-- `increase_many` never touches the clients map. -/
lemma increase_many_clients :
    ∀ (l : List String) (s : MuxState), ((increase_many s l).1).clients = s.clients := by
  intro l
  induction l with
  | nil => intro s; rfl
  | cons m rest ih =>
    intro s
    simp only [increase_many]
    rw [ih, increase_count_fst]

/-- `increase_many` never touches the outputs. -/
lemma increase_many_outputs :
    ∀ (l : List String) (s : MuxState), ((increase_many s l).1).outputs = s.outputs := by
  intro l
  induction l with
  | nil => intro s; rfl
  | cons m rest ih =>
    intro s
    simp only [increase_many]
    rw [ih, increase_count_fst]

/-- Whether an action is an attachment (core or per-output) of the handler
of the given event name. -/
def attachIsFor (name : String) : Act → Bool
  | Act.attach_core n => n == name
  | Act.attach_output n _ => n == name
  | _ => false

/-- The attachment actions for one event name inside an action trace. -/
def attachesFor (name : String) (acts : List Act) : List Act :=
  acts.filter (attachIsFor name)

/-- `attachesFor` distributes over trace concatenation. -/
lemma attachesFor_append (name : String) (a b : List Act) :
    attachesFor name (a ++ b) = attachesFor name a ++ attachesFor name b :=
  List.filter_append a b

/-- An increment of an event that is already live attaches nothing. -/
lemma attachesFor_increase_of_pos (s : MuxState) (name : String) (h : 0 < s.counts name) :
    attachesFor name (increase_count s name).2 = [] := by
  have hgt : s.counts name + 1 > 1 := by omega
  simp [increase_count, hgt, attachesFor]

/-- An increment of a different event never attaches this one. -/
lemma attachesFor_increase_of_ne (s : MuxState) {m name : String} (h : m ≠ name) :
    attachesFor name (increase_count s m).2 = [] := by
  unfold attachesFor
  refine List.filter_eq_nil_iff.mpr ?_
  intro a ha
  unfold increase_count at ha
  simp only at ha
  split at ha
  · simp at ha
  · rcases List.mem_append.mp ha with h1 | h1
    · split at h1
      · rcases List.mem_singleton.mp h1 with rfl
        simp [attachIsFor, h]
      · simp at h1
    · split at h1
      · rcases List.mem_map.mp h1 with ⟨o, _, rfl⟩
        simp [attachIsFor, h]
      · simp at h1

/-- While an event is live, a whole `increase_many` pass (any `watch`
call) attaches nothing for it. -/
lemma attachesFor_increase_many :
    ∀ (l : List String) (s : MuxState) (name : String), 0 < s.counts name →
      attachesFor name (increase_many s l).2 = [] := by
  intro l
  induction l with
  | nil => intro s name _; rfl
  | cons m rest ih =>
    intro s name h
    simp only [increase_many]
    rw [attachesFor_append]
    have h1 : attachesFor name (increase_count s m).2 = [] := by
      by_cases hm : m = name
      · subst hm; exact attachesFor_increase_of_pos s m h
      · exact attachesFor_increase_of_ne s hm
    have h2 : attachesFor name (increase_many (increase_count s m).1 rest).2 = [] := by
      apply ih
      rw [increase_count_fst]
      simp only
      split
      · rename_i hx
        subst hx
        omega
      · omega
    rw [h1, h2]
    rfl

/-- Decrements never attach. -/
lemma attachesFor_decrease (s : MuxState) (m name : String) :
    attachesFor name (decrease_count s m).2 = [] := by
  by_cases h : s.counts m - 1 > 0 <;> simp [decrease_count, h, attachesFor, attachIsFor]

/-- A whole `decrease_many` pass (any disconnect) never attaches. -/
lemma attachesFor_decrease_many :
    ∀ (l : List String) (s : MuxState) (name : String),
      attachesFor name (decrease_many s l).2 = [] := by
  intro l
  induction l with
  | nil => intro s name; rfl
  | cons m rest ih =>
    intro s name
    simp only [decrease_many]
    rw [attachesFor_append, attachesFor_decrease, ih]
    rfl

/-- Fan-out sends are not attachments. -/
lemma attachesFor_send_event (s : MuxState) (N name : String) :
    attachesFor name (send_event_to_subscribes s N) = [] := by
  unfold attachesFor
  refine List.filter_eq_nil_iff.mpr ?_
  intro a ha
  rcases List.mem_filterMap.mp ha with ⟨p, _, hp⟩
  split at hp
  · cases hp; simp [attachIsFor]
  · cases hp

/-- Filtering the per-output registration loop of `handle_new_output` down
to one event name: one attachment per occurrence of the name in the
iterated list, provided its guard holds, and nothing otherwise. -/
lemma attachesFor_filterMap_attach (name : String) (o : OutputId) (B : String → Bool) :
    ∀ l : List String,
      attachesFor name (l.filterMap fun n => if B n then some (Act.attach_output n o) else none)
        = List.replicate (if B name then l.count name else 0) (Act.attach_output name o) := by
  intro l
  induction l with
  | nil => simp [attachesFor]
  | cons m rest ih =>
    simp only [List.filterMap_cons]
    by_cases hBm : B m = true
    · rw [if_pos hBm]
      by_cases hm : m = name
      · subst hm
        have : attachIsFor m (Act.attach_output m o) = true := by simp [attachIsFor]
        unfold attachesFor at ih ⊢
        rw [List.filter_cons_of_pos this, ih]
        rw [if_pos hBm, if_pos hBm, List.count_cons_self]
        rfl
      · have : attachIsFor name (Act.attach_output m o) = false := by simp [attachIsFor, hm]
        unfold attachesFor at ih ⊢
        rw [List.filter_cons_of_neg (by simp [this]), ih]
        have hcnt : (m :: rest).count name = rest.count name := by
          rw [List.count_cons]
          simp [hm]
        rw [hcnt]
    · rw [if_neg hBm]
      rw [ih]
      by_cases hm : m = name
      · subst hm
        rw [if_neg hBm, if_neg hBm]
      · have hcnt : (m :: rest).count name = rest.count name := by
          rw [List.count_cons]
          simp [hm]
        rw [hcnt]

/-- C5: while an event name's subscriber count is positive, processing any
further input performs no attachment for that (name, scope) — a `watch`
call incrementing it again attaches nothing (the attach happens only on
the 0-to-1 transition inside `increase_count`), a disconnect attaches
nothing, a fired signal attaches nothing — with the single exception that
a newly appearing output is attached exactly once when the name is a
per-output (output-scope) event. -/
theorem idempotent_attach_while_live (s : MuxState) (e : Event) (name : String)
    (h : 0 < s.counts name) :
    attachesFor name (step s e).2 =
      (match e with
       | Event.new_output o =>
         if name ∈ output_scope_names then [Act.attach_output name o] else []
       | _ => []) := by
  cases e with
  | watch c data =>
    simp only [step]
    unfold on_client_watch
    split
    · split
      · rfl
      · exact attachesFor_increase_many _ _ _ h
    · rfl
    · exact attachesFor_increase_many _ _ _ h
  | disconnect c =>
    simp only [step]
    unfold on_client_disconnected
    exact attachesFor_decrease_many _ _ _
  | new_output o =>
    simp only [step]
    rw [attachesFor_append, attachesFor_send_event, List.append_nil]
    rw [attachesFor_filterMap_attach]
    have hb : (s.counts name != 0) = true := by
      rw [bne_iff_ne]
      omega
    rw [hb, Bool.true_and]
    by_cases hmem : name ∈ output_scope_names
    · have hc : output_scope_names.contains name = true := List.elem_iff.mpr hmem
      rw [hc, if_pos rfl]
      have hcnt : signal_map_names.count name = 1 :=
        List.count_eq_one_of_mem (by decide) (List.mem_append.mpr (Or.inr hmem))
      rw [hcnt, if_pos hmem]
      rfl
    · have hc : output_scope_names.contains name = false :=
        Bool.eq_false_iff.mpr (fun hcc => hmem (List.elem_iff.mp hcc))
      rw [hc, if_neg hmem]
      rfl
  | output_removed o =>
    simp only [step]
    exact attachesFor_send_event _ _ _
  | signal_fired n =>
    simp only [step]
    split
    · exact attachesFor_send_event _ _ _
    · rfl

/-- Witness for `idempotent_attach_while_live`: after one client watches
["view-tiled"] its count is 1, and a newly appearing output 3 attaches
"view-tiled" to it exactly once. -/
theorem idempotent_attach_while_live_witness :
    0 < ((run [Event.watch 0 (JVal.jobj [("events",
        JVal.jarr [JVal.jstr "view-tiled"])])]).1).counts "view-tiled" ∧
    attachesFor "view-tiled"
        (step (run [Event.watch 0 (JVal.jobj [("events",
          JVal.jarr [JVal.jstr "view-tiled"])])]).1 (Event.new_output 3)).2 =
      [Act.attach_output "view-tiled" 3] := by
  refine ⟨by decide, ?_⟩
  have h := idempotent_attach_while_live
    (run [Event.watch 0 (JVal.jobj [("events", JVal.jarr [JVal.jstr "view-tiled"])])]).1
    (Event.new_output 3) "view-tiled" (by decide)
  rw [h]
  simp only [if_pos (by decide : "view-tiled" ∈ output_scope_names)]

/-- The delivery test in boolean form versus its set meaning. -/
lemma wants_iff {evs : List String} {N : String} :
    wants evs N = true ↔ (evs = [] ∨ N ∈ evs) := by
  unfold wants
  rw [Bool.or_eq_true, List.isEmpty_iff, List.elem_iff]

/-- C6: `send_event_to_subscribes` delivers the payload of an event named
`N` to a client exactly when some stored registry entry for that client
has a subscription set that is empty or contains `N`; no other client is
sent anything. -/
theorem fanout_exact (s : MuxState) (c : ClientId) (N : String) :
    Act.send c N ∈ send_event_to_subscribes s N ↔
      ∃ evs, (c, evs) ∈ s.clients ∧ (evs = [] ∨ N ∈ evs) := by
  unfold send_event_to_subscribes
  rw [List.mem_filterMap]
  constructor
  · rintro ⟨⟨c1, evs⟩, hmem, hif⟩
    split at hif
    · rename_i hw
      cases hif
      exact ⟨evs, hmem, wants_iff.mp hw⟩
    · cases hif
  · rintro ⟨evs, hmem, hw⟩
    refine ⟨(c, evs), hmem, ?_⟩
    rw [if_pos (wants_iff.mpr hw)]

/-- C7: the catalog key for the fullscreen signal is "view-fullscreened",
but its handler publishes under "view-fullscreen" (`handler_event_name`).
A client whose stored subscription set explicitly contains
"view-fullscreened" (and, like every set built by `on_client_watch`, only
catalog names) is never sent the fullscreen event, because the fan-out
membership test looks for "view-fullscreen", which no catalog-only set
can contain; the delivery test passes exactly for clients whose stored
set is empty. -/
theorem fullscreen_name_mismatch (s : MuxState) (c : ClientId)
    (hc : ∀ p ∈ s.clients, p.1 = c →
      "view-fullscreened" ∈ p.2 ∧ ∀ x ∈ p.2, x ∈ signal_map_names) :
    Act.send c (handler_event_name "view-fullscreened") ∉
      send_event_to_subscribes s (handler_event_name "view-fullscreened") ∧
    ∀ evs : List String, (∀ x ∈ evs, x ∈ signal_map_names) →
      (wants evs (handler_event_name "view-fullscreened") = true ↔ evs = []) := by
  have hpub : handler_event_name "view-fullscreened" = "view-fullscreen" := rfl
  have hnotin : "view-fullscreen" ∉ signal_map_names := by decide
  constructor
  · intro hmem
    rw [hpub] at hmem
    unfold send_event_to_subscribes at hmem
    rcases List.mem_filterMap.mp hmem with ⟨p, hp, hif⟩
    split at hif
    · rename_i hw
      cases hif
      rcases hc p hp rfl with ⟨hfs, hsub⟩
      rcases wants_iff.mp hw with h0 | h0
      · rw [h0] at hfs
        cases hfs
      · exact hnotin (hsub _ h0)
    · cases hif
  · intro evs hsub
    rw [hpub]
    constructor
    · intro hw
      rcases wants_iff.mp hw with h0 | h0
      · exact h0
      · exact absurd (hsub _ h0) hnotin
    · intro h0
      subst h0
      rfl

/-- Witness for `fullscreen_name_mismatch`: client 0 explicitly watches
["view-fullscreened"], client 1 watches the empty list; the fullscreen
event is not sent to client 0. -/
theorem fullscreen_name_mismatch_witness :
    Act.send 0 (handler_event_name "view-fullscreened") ∉
      send_event_to_subscribes
        (run [Event.watch 0 (JVal.jobj [("events", JVal.jarr [JVal.jstr "view-fullscreened"])]),
              Event.watch 1 (JVal.jobj [("events", JVal.jarr [])])]).1
        (handler_event_name "view-fullscreened") :=
  (fullscreen_name_mismatch
    (run [Event.watch 0 (JVal.jobj [("events", JVal.jarr [JVal.jstr "view-fullscreened"])]),
          Event.watch 1 (JVal.jobj [("events", JVal.jarr [])])]).1
    0 (by decide)).1

/-- C1: evaluation of the code at the failing sequence. Client 7 watches
["view-mapped"] and then re-watches ["view-tiled"] with no disconnect.
`on_client_watch` overwrites `clients[client]` without decrementing the
prior set (ipc-rules.cpp lines 550-556), so the "view-mapped" handler
stays attached (`connected_count` = 1, an attach with no matching detach
in the trace) although no currently connected client's subscription set
contains "view-mapped" — the number of live attachments for that name is
1 where the ref-count-exactness property demands 0. -/
theorem refcount_leak_on_rewatch :
    ((run [Event.watch 7 (JVal.jobj [("events", JVal.jarr [JVal.jstr "view-mapped"])]),
           Event.watch 7 (JVal.jobj [("events", JVal.jarr [JVal.jstr "view-tiled"])])]).1).counts
        "view-mapped" = 1 ∧
    (∀ p ∈ (run [Event.watch 7 (JVal.jobj [("events", JVal.jarr [JVal.jstr "view-mapped"])]),
                 Event.watch 7 (JVal.jobj [("events",
                   JVal.jarr [JVal.jstr "view-tiled"])])]).1.clients,
      "view-mapped" ∉ p.2) ∧
    Act.attach_core "view-mapped" ∈
      (run [Event.watch 7 (JVal.jobj [("events", JVal.jarr [JVal.jstr "view-mapped"])]),
            Event.watch 7 (JVal.jobj [("events", JVal.jarr [JVal.jstr "view-tiled"])])]).2 ∧
    Act.detach "view-mapped" ∉
      (run [Event.watch 7 (JVal.jobj [("events", JVal.jarr [JVal.jstr "view-mapped"])]),
            Event.watch 7 (JVal.jobj [("events", JVal.jarr [JVal.jstr "view-tiled"])])]).2 := by
  decide

/-- C2: evaluation of the code at the failing sequence. Client 0 watches
["view-minimized"] and then watches ["view-sticky"]. The claim (and spec)
require the second call to first decrement the prior set, returning the
"view-minimized" ref count to 0; the code never decrements it, so it
stays at 1. The replacement of the stored set itself does happen, so the
client indeed no longer receives "view-minimized" events. -/
theorem rewatch_keeps_old_count :
    ((run [Event.watch 0 (JVal.jobj [("events", JVal.jarr [JVal.jstr "view-minimized"])]),
           Event.watch 0 (JVal.jobj [("events", JVal.jarr [JVal.jstr "view-sticky"])])]).1).counts
        "view-minimized" = 1 ∧
    ((run [Event.watch 0 (JVal.jobj [("events", JVal.jarr [JVal.jstr "view-minimized"])]),
           Event.watch 0 (JVal.jobj [("events", JVal.jarr [JVal.jstr "view-sticky"])])]).1).counts
        "view-sticky" = 1 ∧
    getClient
      (run [Event.watch 0 (JVal.jobj [("events", JVal.jarr [JVal.jstr "view-minimized"])]),
            Event.watch 0 (JVal.jobj [("events",
              JVal.jarr [JVal.jstr "view-sticky"])])]).1.clients 0 = ["view-sticky"] ∧
    Act.send 0 "view-minimized" ∉
      send_event_to_subscribes
        (run [Event.watch 0 (JVal.jobj [("events", JVal.jarr [JVal.jstr "view-minimized"])]),
              Event.watch 0 (JVal.jobj [("events", JVal.jarr [JVal.jstr "view-sticky"])])]).1
        "view-minimized" := by
  decide

/-- C3 counterexample: client 0 calls `events/watch` with no `events`
field, then output 5 appears. Contrary to the claim, the stored
subscription set is not the empty receive-everything sentinel, and the
client is not sent the "output-added" event (its stored set is the full
catalog, which does not contain "output-added"). -/
theorem watch_absent_not_empty_set :
    getClient (run [Event.watch 0 (JVal.jobj []), Event.new_output 5]).1.clients 0 ≠ [] ∧
    Act.send 0 "output-added" ∉ (run [Event.watch 0 (JVal.jobj []), Event.new_output 5]).2 := by
  decide

/-- C3 amended: a `events/watch` call without an `events` field stores the
full `signal_map` catalog as the client's subscription set (incrementing
every catalog name's ref count by one) and returns ok; with that stored
set the fan-out delivery test passes exactly for events published under a
catalog name — so the client receives every catalog event, but not
"output-added" (nor "output-removed" or "view-fullscreen", which are
published under non-catalog names). -/
theorem watch_absent_stores_full_catalog (s : MuxState) (c : ClientId) (data : JVal)
    (hev : jget data "events" = none) :
    (on_client_watch s c data).1.clients = setClient s.clients c all_catalog_events ∧
    (∀ n, (on_client_watch s c data).1.counts n
        = s.counts n + (if n ∈ signal_map_names then 1 else 0)) ∧
    (on_client_watch s c data).2.2 = Resp.ok ∧
    (∀ N, wants all_catalog_events N = true ↔ N ∈ signal_map_names) ∧
    wants all_catalog_events "output-added" = false := by
  have hred : on_client_watch s c data =
      ({ (increase_many s all_catalog_events).1 with
          clients := setClient (increase_many s all_catalog_events).1.clients c
            all_catalog_events },
        (increase_many s all_catalog_events).2, Resp.ok) := by
    unfold on_client_watch
    rw [hev]
  refine ⟨?_, ?_, ?_, ?_, ?_⟩
  · rw [hred]
    dsimp only
    rw [increase_many_clients]
  · intro n
    rw [hred]
    dsimp only
    rw [increase_many_counts, count_all_catalog_events]
    split <;> simp
  · rw [hred]
  · intro N
    rw [wants_iff]
    have hne : all_catalog_events ≠ [] := by decide
    simp [hne, mem_all_catalog_events]
  · decide

/-- Witness for `watch_absent_stores_full_catalog` at the initial state. -/
theorem watch_absent_stores_full_catalog_witness :
    (on_client_watch initState 0 (JVal.jobj [])).1.clients
        = setClient initState.clients 0 all_catalog_events ∧
    (on_client_watch initState 0 (JVal.jobj [])).1.counts "view-mapped"
        = initState.counts "view-mapped"
          + (if "view-mapped" ∈ signal_map_names then 1 else 0) ∧
    wants all_catalog_events "output-added" = false := by
  have h := watch_absent_stores_full_catalog initState 0 (JVal.jobj []) rfl
  exact ⟨h.1, h.2.1 "view-mapped", h.2.2.2.2⟩

/-- C8 counterexample: from the initial state, watching with an explicitly
empty `events` list and watching with the field absent leave different
stored sets (empty sentinel vs. full catalog), different ref counts
("view-mapped" stays 0 vs. becomes 1) and different delivery (the empty
set receives "output-added", the full catalog does not). -/
theorem empty_list_vs_absent_differ_example :
    getClient (on_client_watch initState 0
        (JVal.jobj [("events", JVal.jarr [])])).1.clients 0 = [] ∧
    getClient (on_client_watch initState 0 (JVal.jobj [])).1.clients 0 ≠ [] ∧
    (on_client_watch initState 0
        (JVal.jobj [("events", JVal.jarr [])])).1.counts "view-mapped" = 0 ∧
    (on_client_watch initState 0 (JVal.jobj [])).1.counts "view-mapped" = 1 ∧
    wants (getClient (on_client_watch initState 0
        (JVal.jobj [("events", JVal.jarr [])])).1.clients 0) "output-added" = true ∧
    wants (getClient (on_client_watch initState 0 (JVal.jobj [])).1.clients 0)
        "output-added" = false := by
  decide

/-- C8 amended: the two calls are not equivalent. An explicitly empty
`events` list stores the empty set (the receive-everything sentinel) and
increments no ref count, while an absent `events` field stores the full
catalog and increments every catalog name once; the empty set passes the
delivery test for every event name, the full catalog only for catalog
names. -/
theorem empty_list_vs_absent_semantics (s : MuxState) (c : ClientId) (n : String) :
    (on_client_watch s c (JVal.jobj [("events", JVal.jarr [])])).1.clients
        = setClient s.clients c [] ∧
    (on_client_watch s c (JVal.jobj [("events", JVal.jarr [])])).1.counts n = s.counts n ∧
    (on_client_watch s c (JVal.jobj [])).1.clients
        = setClient s.clients c all_catalog_events ∧
    (on_client_watch s c (JVal.jobj [])).1.counts n
        = s.counts n + (if n ∈ signal_map_names then 1 else 0) ∧
    wants [] n = true ∧
    (wants all_catalog_events n = true ↔ n ∈ signal_map_names) := by
  have hred : on_client_watch s c (JVal.jobj []) =
      ({ (increase_many s all_catalog_events).1 with
          clients := setClient (increase_many s all_catalog_events).1.clients c
            all_catalog_events },
        (increase_many s all_catalog_events).2, Resp.ok) := by
    unfold on_client_watch
    rfl
  refine ⟨rfl, rfl, ?_, ?_, rfl, ?_⟩
  · rw [hred]
    dsimp only
    rw [increase_many_clients]
  · rw [hred]
    dsimp only
    rw [increase_many_counts, count_all_catalog_events]
    split <;> simp
  · rw [wants_iff]
    have hne : all_catalog_events ≠ [] := by decide
    simp [hne, mem_all_catalog_events]

/-- The watch-list scan fails whenever any entry is not a string. -/
lemma parse_watch_list_none {l : List JVal} (h : ∃ v ∈ l, isString v = false) :
    ∀ acc, parse_watch_list acc l = none := by
  induction l with
  | nil =>
    rcases h with ⟨v, hv, _⟩
    cases hv
  | cons a rest ih =>
    intro acc
    rcases h with ⟨v, hv, hns⟩
    cases a with
    | jstr str =>
      rcases List.mem_cons.mp hv with h1 | h1
      · subst h1
        cases hns
      · exact ih ⟨v, h1, hns⟩ _
    | jnull => rfl
    | jbool b => rfl
    | jint n => rfl
    | jarr elems => rfl
    | jobj fields => rfl

/-- C9: a `events/watch` request whose `events` array contains any
non-string entry is answered with the invalid-parameter error from
ipc-rules.cpp line 534 and causes no state change at all: no ref count is
incremented, no client entry is stored, no side effect happens. -/
theorem watch_nonstring_rejected (s : MuxState) (c : ClientId) (data : JVal) (l : List JVal)
    (hev : jget data "events" = some (JVal.jarr l))
    (hns : ∃ v ∈ l, isString v = false) :
    on_client_watch s c data =
      (s, [], Resp.error "Event list contains non-string entries!") := by
  unfold on_client_watch
  rw [hev]
  show (match parse_watch_list [] l with
        | none => (s, [], Resp.error "Event list contains non-string entries!")
        | some subscribed_to =>
          let r := increase_many s subscribed_to
          ({ r.1 with clients := setClient r.1.clients c subscribed_to }, r.2, Resp.ok))
      = (s, [], Resp.error "Event list contains non-string entries!")
  rw [parse_watch_list_none hns]

/-- Witness for `watch_nonstring_rejected`: the entry 3 is not a string. -/
theorem watch_nonstring_rejected_witness :
    on_client_watch initState 0 (JVal.jobj [("events", JVal.jarr [JVal.jint 3])]) =
      (initState, [], Resp.error "Event list contains non-string entries!") :=
  watch_nonstring_rejected initState 0 _ [JVal.jint 3] rfl ⟨JVal.jint 3, by simp, rfl⟩

/-- C4 counterexample: a `configure-view` request with a valid `output_id`
and a `geometry` field that passes the upfront object type check but has
invalid content (here the empty object, which lacks the rectangle fields)
moves the view to the output and only then fails the geometry parse — the
response is an error, yet a mutation has already been applied. -/
theorem configure_view_partial_mutation_example :
    configure_view
        (JVal.jobj [("id", JVal.jint 1), ("output_id", JVal.jint 2),
          ("geometry", JVal.jobj [])])
        { views := [(1, true)], outputs := [2] }
      = (Resp.error "invalid geometry", [CVAct.move_view_to_output 1 2 false]) := by
  decide

/-- C4 amended: `configure_view` type-checks every optional field before
touching the view, so any error other than "invalid geometry" (missing or
mistyped fields, unknown view or output, non-toplevel view) is returned
with zero mutations applied; only the geometry-content failure, detected
after the optional `output_id` move has run, can leave a partial
mutation. -/
theorem configure_view_no_mutation_unless_geometry (data : JVal) (w : CVWorld)
    (msg : String) (acts : List CVAct)
    (h : configure_view data w = (Resp.error msg, acts))
    (hmsg : msg ≠ "invalid geometry") : acts = [] := by
  unfold configure_view at h
  simp only [invalid_param] at h
  unfold finish_sticky at h
  repeat' split at h
  all_goals simp_all

/-- Witness for `configure_view_no_mutation_unless_geometry`: an unknown
view id yields the "view not found" error and no mutation. -/
theorem configure_view_no_mutation_unless_geometry_witness :
    (configure_view (JVal.jobj [("id", JVal.jint 99)])
        { views := [], outputs := [] }).2 = [] :=
  configure_view_no_mutation_unless_geometry (JVal.jobj [("id", JVal.jint 99)])
    { views := [], outputs := [] } "view not found" _ (by decide) (by decide)

/-- The device loop finds nothing when no device carries the id. -/
lemma set_first_matching_not_found {devs : List InputDevice} {i : Int} {b : Bool}
    (h : ∀ d ∈ devs, d.id ≠ i) : set_first_matching devs i b = (false, devs) := by
  induction devs with
  | nil => rfl
  | cons d rest ih =>
    unfold set_first_matching
    rw [if_neg (h d (List.mem_cons_self d rest))]
    rw [ih fun d1 hd1 => h d1 (List.mem_cons_of_mem d hd1)]

/-- C10 counterexample: the request carries the integer id -1 and a
boolean `enabled`, and no device has id -1; yet the response is not
`Unknown input device!` — the id field fails the `number_unsigned` check
of `WFJSON_EXPECT_FIELD(data, "id", number_unsigned)` first (a negative
wire integer is nlohmann number_integer but not number_unsigned), so the
handler answers with the invalid-parameter error instead. No device's
enabled state changes either way. -/
theorem configure_input_device_negative_id_example :
    configure_input_device
        (JVal.jobj [("id", JVal.jint (-1)), ("enabled", JVal.jbool true)])
        [{ id := 5, enabled := true }]
      = (invalid_param "id", [{ id := 5, enabled := true }]) ∧
    invalid_param "id" ≠ Resp.error "Unknown input device!" := by
  decide

/-- C10 amended: for a request whose `id` field is a non-negative wire
integer (nlohmann number_unsigned) and whose `enabled` field is a
boolean, when no input device has that id the response is exactly
`Unknown input device!` and the device list — every device's enabled
state — is unchanged; a negative integer id instead fails the upfront
type check with an invalid-parameter error (also with no state change). -/
theorem configure_input_device_unknown_id (data : JVal) (devices : List InputDevice)
    (i : Int) (b : Bool)
    (hid : jget data "id" = some (JVal.jint i)) (hnn : 0 ≤ i)
    (hen : jget data "enabled" = some (JVal.jbool b))
    (hno : ∀ d ∈ devices, d.id ≠ i) :
    configure_input_device data devices = (Resp.error "Unknown input device!", devices) := by
  unfold configure_input_device
  simp only [hid]
  rw [if_neg (by omega : ¬i < 0)]
  simp only [hen]
  rw [set_first_matching_not_found hno]
  rfl

/-- Witness for `configure_input_device_unknown_id`: id 7 with one device
of id 5. -/
theorem configure_input_device_unknown_id_witness :
    configure_input_device
        (JVal.jobj [("id", JVal.jint 7), ("enabled", JVal.jbool false)])
        [{ id := 5, enabled := true }]
      = (Resp.error "Unknown input device!", [{ id := 5, enabled := true }]) :=
  configure_input_device_unknown_id
    (JVal.jobj [("id", JVal.jint 7), ("enabled", JVal.jbool false)])
    [{ id := 5, enabled := true }] 7 false rfl (by decide) rfl (by decide)
